import Mathlib

/-!
Verification of the FileJoiner specification for the
`rust-for-node-developers` repository.

The repository itself is a tutorial; the only executable artifact behind
the specified behavior is `src/write-files/node/src/index.ts`, a fixed-key
worked example (read `hello.txt` and `world.txt`, compose
`hello ++ " " ++ world ++ "!"`, write `hello-world.txt`, throwing a string
message on any failure).  The specification (spec §2–§7) defines the
generalized component `FileJoiner` with operation
`join(firstKey, secondKey, outputKey, separator, suffix) -> JoinResult`
over an abstract storage provider; that component is not present in the
source tree, so it is modelled here from the spec, and the worked example
is embedded from the source and related to it.
-/

/-- Read errors of the storage provider, from spec §6:
`readText(key) -> text or fails with {NotFound, PermissionDenied, InvalidEncoding}`. -/
inductive ReadErr where
  | notFound
  | permissionDenied
  | invalidEncoding
deriving DecidableEq

/-- Write errors of the storage provider, from spec §6:
`writeText(key, text) -> succeeds or fails with {PermissionDenied, NoSpace, IOError}`. -/
inductive WriteErr where
  | permissionDenied
  | noSpace
  | ioError
deriving DecidableEq

/-- Modelled from the spec: the state of the external storage provider
(spec §6, "whatever concrete storage ... a test harness supplies").
`files` maps each key to the stored text (or `none` when absent);
`readDenied`, `badEncoding` and `writeErr` record, per key, which
storage-level failures the provider raises. -/
structure Storage where
  files : String → Option String
  readDenied : String → Bool
  badEncoding : String → Bool
  writeErr : String → Option WriteErr

theorem Storage.ext_iff {s t : Storage} :
    s = t ↔ s.files = t.files ∧ s.readDenied = t.readDenied ∧
      s.badEncoding = t.badEncoding ∧ s.writeErr = t.writeErr := by
  constructor
  · intro h; subst h; exact ⟨rfl, rfl, rfl, rfl⟩
  · intro h
    cases s; cases t
    simp only at h
    simp [h.1, h.2.1, h.2.2.1, h.2.2.2]

/-- Modelled from the spec: the storage provider operation
`readText(key)` of spec §6.  It fails with `PermissionDenied` when the key
is read-protected, `NotFound` when no resource exists at the key, and
`InvalidEncoding` when the stored bytes are not valid UTF-8 text. -/
def readText (s : Storage) (key : String) : Except ReadErr String :=
  if s.readDenied key then Except.error ReadErr.permissionDenied
  else
    match s.files key with
    | none => Except.error ReadErr.notFound
    | some t =>
      if s.badEncoding key then Except.error ReadErr.invalidEncoding
      else Except.ok t

/-- Modelled from the spec: the storage provider operation
`writeText(key, text)` of spec §6; on success it fully replaces any prior
content at the key (spec §4.1 step 4). -/
def writeText (s : Storage) (key text : String) : Except WriteErr Storage :=
  match s.writeErr key with
  | some e => Except.error e
  | none =>
      Except.ok
        ⟨fun k => if k = key then some text else s.files k,
         s.readDenied, s.badEncoding, s.writeErr⟩

/-- The pipeline stage at which a failure originated (spec §3 / glossary):
`read-first`, `read-second`, `compose`, `write`. -/
inductive Stage where
  | readFirst
  | readSecond
  | compose
  | write
deriving DecidableEq

/-- Human-readable cause string derived from an underlying read error
(spec §4.1: "the underlying cause"). -/
def renderReadErr : ReadErr → String
  | ReadErr.notFound => "not found"
  | ReadErr.permissionDenied => "permission denied"
  | ReadErr.invalidEncoding => "invalid encoding"

/-- Human-readable cause string derived from an underlying write error. -/
def renderWriteErr : WriteErr → String
  | WriteErr.permissionDenied => "permission denied"
  | WriteErr.noSpace => "no space"
  | WriteErr.ioError => "io error"

/-- Modelled from the spec: `JoinResult` (spec §3, §7) — either a success
marker carrying the composed string, or a failure value.  Failures follow
the spec §7 taxonomy `ReadFailure(stage, cause)` / `WriteFailure(cause)`;
per spec §8 the write failure additionally keeps the in-memory composed
string accessible as diagnostic context. -/
inductive JoinResult where
  | success (composed : String)
  | readFailure (stage : Stage) (cause : String)
  | writeFailure (cause : String) (composed : String)
deriving DecidableEq

/-- Modelled from the spec: `FileJoiner.join` (spec §4.1), the
deterministic three-step read / compose / write pipeline with fail-fast
semantics.  The source tree realizes only its fixed-key instance
(`src/write-files/node/src/index.ts`, embedded below as `scriptRun`).
The result pairs the returned `JoinResult` with the storage state after
the call; on any failure the state is the input state unchanged. -/
def join (s : Storage) (firstKey secondKey outputKey separator suffix : String) :
    JoinResult × Storage :=
  match readText s firstKey with
  | Except.error e => (JoinResult.readFailure Stage.readFirst (renderReadErr e), s)
  | Except.ok first =>
    match readText s secondKey with
    | Except.error e => (JoinResult.readFailure Stage.readSecond (renderReadErr e), s)
    | Except.ok second =>
      let composed := first ++ separator ++ second ++ suffix
      match writeText s outputKey composed with
      | Except.error e => (JoinResult.writeFailure (renderWriteErr e) composed, s)
      | Except.ok s₁ => (JoinResult.success composed, s₁)

/-- The default separator of `join` (spec §4.1: a single space, matching
the worked example `src/write-files/node/src/index.ts`). -/
def defaultSeparator : String := " "

/-- The default suffix of `join` (spec §4.1: `"!"`, matching the worked
example `src/write-files/node/src/index.ts`). -/
def defaultSuffix : String := "!"

/-- `join` with the default separator and suffix (spec §4.1 defaults). -/
def joinDefault (s : Storage) (firstKey secondKey outputKey : String) :
    JoinResult × Storage :=
  join s firstKey secondKey outputKey defaultSeparator defaultSuffix

/-- Outcome of running the worked-example script: Node propagates an
uncaught `throw` out of the top level (terminating the process), or the
script finishes with a final storage state and its `console.log` line. -/
inductive ScriptOutcome where
  | thrown (msg : String)
  | finished (s₁ : Storage) (logLine : String)

/-- Embedding of `src/write-files/node/src/index.ts`: read `hello.txt`,
read `world.txt`, compose `` `${hello} ${world}!` ``, write
`hello-world.txt`, logging on success; each `catch` block throws a fixed
string message. -/
def scriptRun (s : Storage) : ScriptOutcome :=
  match readText s "hello.txt" with
  | Except.error _ => ScriptOutcome.thrown "Couldn\x27t read \x27hello.txt\x27."
  | Except.ok hello =>
    match readText s "world.txt" with
    | Except.error _ => ScriptOutcome.thrown "Couldn\x27t read \x27world.txt\x27."
    | Except.ok world =>
      let helloWorld := hello ++ " " ++ world ++ "!"
      match writeText s "hello-world.txt" helloWorld with
      | Except.error _ => ScriptOutcome.thrown "Couldn\x27t write \x27hello-world.txt\x27."
      | Except.ok s₁ =>
        ScriptOutcome.finished s₁
          ("Wrote file \x27hello-world.txt\x27 with content: " ++ helloWorld)

/-- On the success path the worked-example script computes exactly what
`joinDefault` computes at its fixed keys: the spec model agrees with the
source at the one instance the source implements. -/
theorem scriptRun_agrees_with_joinDefault (s s₁ : Storage) (c : String)
    (h : joinDefault s "hello.txt" "world.txt" "hello-world.txt" =
      (JoinResult.success c, s₁)) :
    scriptRun s =
      ScriptOutcome.finished s₁
        ("Wrote file \x27hello-world.txt\x27 with content: " ++ c) := by
  unfold joinDefault join defaultSeparator defaultSuffix at h
  unfold scriptRun
  cases h1 : readText s "hello.txt" with
  | error e => rw [h1] at h; exact absurd (congrArg Prod.fst h) (by simp)
  | ok hello =>
    rw [h1] at h
    cases h2 : readText s "world.txt" with
    | error e => rw [h2] at h; exact absurd (congrArg Prod.fst h) (by simp)
    | ok world =>
      rw [h2] at h
      cases h3 : writeText s "hello-world.txt" (hello ++ " " ++ world ++ "!") with
      | error e => simp only [h3] at h; exact absurd (congrArg Prod.fst h) (by simp)
      | ok s' =>
        simp only [h3] at h
        have hc : hello ++ " " ++ world ++ "!" = c := by
          have := congrArg Prod.fst h
          simpa using this
        have hs : s' = s₁ := by
          have := congrArg Prod.snd h
          simpa using this
        rw [hc] at h3
        simp only [hc, h3, hs]

/-! ### Equation and inversion lemmas for the `join` pipeline -/

theorem writeText_ok_iff (s : Storage) (o text : String) (s₁ : Storage) :
    writeText s o text = Except.ok s₁ ↔
      s.writeErr o = none ∧
        s₁ = ⟨fun k => if k = o then some text else s.files k,
              s.readDenied, s.badEncoding, s.writeErr⟩ := by
  unfold writeText
  cases hw : s.writeErr o <;> simp [eq_comm]

theorem join_eq_of_first_error (s : Storage) (f k o sep suf : String) (e : ReadErr)
    (h : readText s f = Except.error e) :
    join s f k o sep suf = (JoinResult.readFailure Stage.readFirst (renderReadErr e), s) := by
  unfold join
  rw [h]

theorem join_eq_of_second_error (s : Storage) (f k o sep suf t : String) (e : ReadErr)
    (h1 : readText s f = Except.ok t) (h2 : readText s k = Except.error e) :
    join s f k o sep suf = (JoinResult.readFailure Stage.readSecond (renderReadErr e), s) := by
  unfold join
  rw [h1, h2]

theorem join_eq_of_write_error (s : Storage) (f k o sep suf t u : String) (e : WriteErr)
    (h1 : readText s f = Except.ok t) (h2 : readText s k = Except.ok u)
    (h3 : writeText s o (t ++ sep ++ u ++ suf) = Except.error e) :
    join s f k o sep suf =
      (JoinResult.writeFailure (renderWriteErr e) (t ++ sep ++ u ++ suf), s) := by
  unfold join
  rw [h1, h2]
  simp only [h3]

theorem join_eq_of_success (s s₁ : Storage) (f k o sep suf t u : String)
    (h1 : readText s f = Except.ok t) (h2 : readText s k = Except.ok u)
    (h3 : writeText s o (t ++ sep ++ u ++ suf) = Except.ok s₁) :
    join s f k o sep suf = (JoinResult.success (t ++ sep ++ u ++ suf), s₁) := by
  unfold join
  rw [h1, h2]
  simp only [h3]

theorem join_success_inversion (s : Storage) (f k o sep suf c : String)
    (h : (join s f k o sep suf).1 = JoinResult.success c) :
    ∃ t u, readText s f = Except.ok t ∧ readText s k = Except.ok u ∧
      c = t ++ sep ++ u ++ suf ∧
      writeText s o c = Except.ok (join s f k o sep suf).2 := by
  cases h1 : readText s f with
  | error e =>
    rw [join_eq_of_first_error s f k o sep suf e h1] at h
    simp at h
  | ok t =>
    cases h2 : readText s k with
    | error e =>
      rw [join_eq_of_second_error s f k o sep suf t e h1 h2] at h
      simp at h
    | ok u =>
      cases h3 : writeText s o (t ++ sep ++ u ++ suf) with
      | error e =>
        rw [join_eq_of_write_error s f k o sep suf t u e h1 h2 h3] at h
        simp at h
      | ok s₁ =>
        have hj := join_eq_of_success s s₁ f k o sep suf t u h1 h2 h3
        rw [hj] at h ⊢
        have hc : c = t ++ sep ++ u ++ suf := by
          simpa using h.symm
        refine ⟨t, u, rfl, rfl, hc, ?_⟩
        rw [hc]
        exact h3

theorem join_state_unchanged_unless_success (s : Storage) (f k o sep suf : String)
    (h : ∀ c, (join s f k o sep suf).1 ≠ JoinResult.success c) :
    (join s f k o sep suf).2 = s := by
  cases h1 : readText s f with
  | error e => rw [join_eq_of_first_error s f k o sep suf e h1]
  | ok t =>
    cases h2 : readText s k with
    | error e => rw [join_eq_of_second_error s f k o sep suf t e h1 h2]
    | ok u =>
      cases h3 : writeText s o (t ++ sep ++ u ++ suf) with
      | error e => rw [join_eq_of_write_error s f k o sep suf t u e h1 h2 h3]
      | ok s₁ =>
        have hj := join_eq_of_success s s₁ f k o sep suf t u h1 h2 h3
        exact absurd (by rw [hj] : (join s f k o sep suf).1 =
          JoinResult.success (t ++ sep ++ u ++ suf)) (h (t ++ sep ++ u ++ suf))

/-! ### Concrete storage states used as witnesses -/

/-- Both input resources present with the worked-example contents; no
storage failures anywhere. -/
def sampleStore : Storage :=
  ⟨fun k => if k = "a.txt" then some "Hello" else if k = "b.txt" then some "world" else none,
   fun _ => false, fun _ => false, fun _ => none⟩

/-- The first input resource is absent; the output key holds pre-existing
content `"old"`. -/
def missingFirstStore : Storage :=
  ⟨fun k => if k = "b.txt" then some "world" else if k = "out.txt" then some "old" else none,
   fun _ => false, fun _ => false, fun _ => none⟩

/-- The second input resource is absent while the first is present. -/
def missingSecondStore : Storage :=
  ⟨fun k => if k = "a.txt" then some "Hello" else none,
   fun _ => false, fun _ => false, fun _ => none⟩

/-- Both inputs readable, but the provider rejects writes to `out.txt`
with a permission error. -/
def writeDeniedStore : Storage :=
  ⟨fun k => if k = "a.txt" then some "Hello" else if k = "b.txt" then some "world" else none,
   fun _ => false, fun _ => false,
   fun k => if k = "out.txt" then some WriteErr.permissionDenied else none⟩

/-! ### Claims -/

/-- Claim C1: for every pair of input resources whose contents are
`"Hello"` and `"world"`, `join` with the default separator (single space)
and default suffix (`"!"`) succeeds, produces the composed string
`"Hello world!"`, and reading the output resource afterwards returns that
same string. -/
theorem join_default_hello_world (s : Storage) (a b out : String)
    (ha : readText s a = Except.ok "Hello")
    (hb : readText s b = Except.ok "world")
    (hw : s.writeErr out = none)
    (hrd : s.readDenied out = false)
    (hbe : s.badEncoding out = false) :
    ∃ s₁, joinDefault s a b out = (JoinResult.success "Hello world!", s₁) ∧
      readText s₁ out = Except.ok "Hello world!" := by
  have hcomp : ("Hello" ++ defaultSeparator ++ "world" ++ defaultSuffix : String) =
      "Hello world!" := rfl
  refine ⟨⟨fun k => if k = out then some "Hello world!" else s.files k,
          s.readDenied, s.badEncoding, s.writeErr⟩, ?_, ?_⟩
  · have h3 : writeText s out ("Hello" ++ defaultSeparator ++ "world" ++ defaultSuffix) =
        Except.ok ⟨fun k => if k = out then some "Hello world!" else s.files k,
          s.readDenied, s.badEncoding, s.writeErr⟩ := by
      rw [hcomp]
      unfold writeText
      rw [hw]
    have hj := join_eq_of_success s _ a b out defaultSeparator defaultSuffix
      "Hello" "world" ha hb h3
    unfold joinDefault
    rw [hj, hcomp]
  · simp [readText, hrd, hbe]

/-- Concrete run of Claim C1's theorem on `sampleStore`. -/
theorem join_default_hello_world_witness :
    readText sampleStore "a.txt" = Except.ok "Hello" ∧
    readText sampleStore "b.txt" = Except.ok "world" ∧
    ∃ s₁, joinDefault sampleStore "a.txt" "b.txt" "out.txt" =
        (JoinResult.success "Hello world!", s₁) ∧
      readText s₁ "out.txt" = Except.ok "Hello world!" :=
  ⟨rfl, rfl,
   join_default_hello_world sampleStore "a.txt" "b.txt" "out.txt" rfl rfl rfl rfl rfl⟩

/-- Claim C2: the output resource is written only if both reads and the
composition succeed — whenever either read fails, `join` performs no
write, so the whole storage state (in particular the output key's prior
content or prior absence) is preserved exactly. -/
theorem join_no_write_on_read_failure (s : Storage) (f k o sep suf : String)
    (h : (∃ e, readText s f = Except.error e) ∨ (∃ e, readText s k = Except.error e)) :
    (join s f k o sep suf).2 = s := by
  rcases h with ⟨e, he⟩ | ⟨e, he⟩
  · rw [join_eq_of_first_error s f k o sep suf e he]
  · cases h1 : readText s f with
    | error e1 => rw [join_eq_of_first_error s f k o sep suf e1 h1]
    | ok t => rw [join_eq_of_second_error s f k o sep suf t e h1 he]

/-- Concrete run of Claim C2's theorem: the first input is missing and the
pre-existing output resource is untouched. -/
theorem join_no_write_on_read_failure_witness :
    (∃ e, readText missingFirstStore "a.txt" = Except.error e) ∧
    (join missingFirstStore "a.txt" "b.txt" "out.txt" " " "!").2 = missingFirstStore :=
  ⟨⟨ReadErr.notFound, rfl⟩,
   join_no_write_on_read_failure missingFirstStore "a.txt" "b.txt" "out.txt" " " "!"
     (Or.inl ⟨ReadErr.notFound, rfl⟩)⟩

/-- Claim C3: for every input, `join` terminates with a `JoinResult`
value handed back to the caller — every failure is one of the declared
failure variants (with the storage state unchanged), never an unwound
exception or a process exit; in this model `join` is a total function
into `JoinResult × Storage`, in contrast to the embedded source script
`scriptRun`, whose `ScriptOutcome.thrown` channel it never has. -/
theorem join_failures_returned_as_values (s : Storage) (f k o sep suf : String) :
    (∃ c s₁, join s f k o sep suf = (JoinResult.success c, s₁)) ∨
    (∃ st c, join s f k o sep suf = (JoinResult.readFailure st c, s)) ∨
    (∃ c comp, join s f k o sep suf = (JoinResult.writeFailure c comp, s)) := by
  cases h1 : readText s f with
  | error e => exact Or.inr (Or.inl ⟨_, _, join_eq_of_first_error s f k o sep suf e h1⟩)
  | ok t =>
    cases h2 : readText s k with
    | error e =>
      exact Or.inr (Or.inl ⟨_, _, join_eq_of_second_error s f k o sep suf t e h1 h2⟩)
    | ok u =>
      cases h3 : writeText s o (t ++ sep ++ u ++ suf) with
      | error e =>
        exact Or.inr (Or.inr ⟨_, _, join_eq_of_write_error s f k o sep suf t u e h1 h2 h3⟩)
      | ok s₁ => exact Or.inl ⟨_, _, join_eq_of_success s s₁ f k o sep suf t u h1 h2 h3⟩

/-- Claim C4: when the first resource cannot be read, `join` returns a
read failure tagged `read-first` and the state is unchanged (no write);
when the first read succeeds but the second resource cannot be read,
`join` returns a read failure tagged `read-second`, again with the state
unchanged. -/
theorem join_read_failure_stages (s : Storage) (f k o sep suf : String) :
    (∀ e, readText s f = Except.error e →
      join s f k o sep suf = (JoinResult.readFailure Stage.readFirst (renderReadErr e), s)) ∧
    (∀ t e, readText s f = Except.ok t → readText s k = Except.error e →
      join s f k o sep suf = (JoinResult.readFailure Stage.readSecond (renderReadErr e), s)) :=
  ⟨fun e he => join_eq_of_first_error s f k o sep suf e he,
   fun t e h1 h2 => join_eq_of_second_error s f k o sep suf t e h1 h2⟩

/-- Concrete runs of Claim C4's theorem: a missing first resource and a
missing second resource. -/
theorem join_read_failure_stages_witness :
    join missingFirstStore "a.txt" "b.txt" "out.txt" " " "!" =
      (JoinResult.readFailure Stage.readFirst (renderReadErr ReadErr.notFound),
        missingFirstStore) ∧
    join missingSecondStore "a.txt" "b.txt" "out.txt" " " "!" =
      (JoinResult.readFailure Stage.readSecond (renderReadErr ReadErr.notFound),
        missingSecondStore) :=
  ⟨(join_read_failure_stages missingFirstStore "a.txt" "b.txt" "out.txt" " " "!").1
      ReadErr.notFound rfl,
   (join_read_failure_stages missingSecondStore "a.txt" "b.txt" "out.txt" " " "!").2
      "Hello" ReadErr.notFound rfl rfl⟩

/-- Claim C5: when both reads succeed but the storage provider rejects
the write, `join` returns a write failure whose value carries the
in-memory composed string as diagnostic context (it is not silently
lost), and the state is unchanged. -/
theorem join_write_failure_keeps_composed (s : Storage) (f k o sep suf t u : String)
    (e : WriteErr) (h1 : readText s f = Except.ok t) (h2 : readText s k = Except.ok u)
    (h3 : s.writeErr o = some e) :
    join s f k o sep suf =
      (JoinResult.writeFailure (renderWriteErr e) (t ++ sep ++ u ++ suf), s) := by
  apply join_eq_of_write_error s f k o sep suf t u e h1 h2
  unfold writeText
  rw [h3]

/-- Concrete run of Claim C5's theorem on a store whose provider denies
writing `out.txt`. -/
theorem join_write_failure_keeps_composed_witness :
    writeDeniedStore.writeErr "out.txt" = some WriteErr.permissionDenied ∧
    join writeDeniedStore "a.txt" "b.txt" "out.txt" " " "!" =
      (JoinResult.writeFailure (renderWriteErr WriteErr.permissionDenied) "Hello world!",
        writeDeniedStore) :=
  ⟨rfl,
   join_write_failure_keeps_composed writeDeniedStore "a.txt" "b.txt" "out.txt" " " "!"
     "Hello" "world" WriteErr.permissionDenied rfl rfl rfl⟩

theorem readText_after_write (s s₁ : Storage) (o text x : String)
    (hw : writeText s o text = Except.ok s₁) (hx : x ≠ o) :
    readText s₁ x = readText s x := by
  rw [writeText_ok_iff] at hw
  obtain ⟨-, rfl⟩ := hw
  unfold readText
  simp [hx]

theorem writeErr_after_write (s s₁ : Storage) (o text : String)
    (hw : writeText s o text = Except.ok s₁) : s₁.writeErr = s.writeErr := by
  rw [writeText_ok_iff] at hw
  obtain ⟨-, rfl⟩ := hw
  rfl

/-- Claim C6: every failure of `join` identifies the pipeline stage that
failed and carries a human-readable cause string derived from the
underlying storage error — and the derivation is faithful (injective),
not a fixed message independent of the error. -/
theorem join_failure_identifies_stage_and_cause (s : Storage) (f k o sep suf : String) :
    (∀ st c, (join s f k o sep suf).1 = JoinResult.readFailure st c →
      (st = Stage.readFirst ∧ ∃ e, readText s f = Except.error e ∧ c = renderReadErr e) ∨
      (st = Stage.readSecond ∧ ∃ e, readText s k = Except.error e ∧ c = renderReadErr e)) ∧
    (∀ c comp, (join s f k o sep suf).1 = JoinResult.writeFailure c comp →
      ∃ e, writeText s o comp = Except.error e ∧ c = renderWriteErr e) ∧
    Function.Injective renderReadErr ∧ Function.Injective renderWriteErr := by
  refine ⟨?_, ?_, ?_, ?_⟩
  · intro st c h
    cases h1 : readText s f with
    | error e =>
      rw [join_eq_of_first_error s f k o sep suf e h1] at h
      simp at h
      exact Or.inl ⟨h.1.symm, e, rfl, h.2.symm⟩
    | ok t =>
      cases h2 : readText s k with
      | error e =>
        rw [join_eq_of_second_error s f k o sep suf t e h1 h2] at h
        simp at h
        exact Or.inr ⟨h.1.symm, e, rfl, h.2.symm⟩
      | ok u =>
        cases h3 : writeText s o (t ++ sep ++ u ++ suf) with
        | error e =>
          rw [join_eq_of_write_error s f k o sep suf t u e h1 h2 h3] at h
          simp at h
        | ok s₁ =>
          rw [join_eq_of_success s s₁ f k o sep suf t u h1 h2 h3] at h
          simp at h
  · intro c comp h
    cases h1 : readText s f with
    | error e =>
      rw [join_eq_of_first_error s f k o sep suf e h1] at h
      simp at h
    | ok t =>
      cases h2 : readText s k with
      | error e =>
        rw [join_eq_of_second_error s f k o sep suf t e h1 h2] at h
        simp at h
      | ok u =>
        cases h3 : writeText s o (t ++ sep ++ u ++ suf) with
        | error e =>
          rw [join_eq_of_write_error s f k o sep suf t u e h1 h2 h3] at h
          simp at h
          obtain ⟨hc, hcomp⟩ := h
          rw [hcomp] at h3
          exact ⟨e, h3, hc.symm⟩
        | ok s₁ =>
          rw [join_eq_of_success s s₁ f k o sep suf t u h1 h2 h3] at h
          simp at h
  · intro a b hab
    cases a <;> cases b <;> first | rfl | exact absurd hab (by decide)
  · intro a b hab
    cases a <;> cases b <;> first | rfl | exact absurd hab (by decide)

/-- Concrete run of Claim C6's theorem: a `read-first` failure whose
cause string is the rendering of the underlying `NotFound` error. -/
theorem join_failure_identifies_stage_and_cause_witness :
    ((join missingFirstStore "a.txt" "b.txt" "out.txt" " " "!").1 =
      JoinResult.readFailure Stage.readFirst "not found") ∧
    ((Stage.readFirst = Stage.readFirst ∧
        ∃ e, readText missingFirstStore "a.txt" = Except.error e ∧
          "not found" = renderReadErr e) ∨
      (Stage.readFirst = Stage.readSecond ∧
        ∃ e, readText missingFirstStore "b.txt" = Except.error e ∧
          "not found" = renderReadErr e)) :=
  ⟨rfl,
   (join_failure_identifies_stage_and_cause missingFirstStore
      "a.txt" "b.txt" "out.txt" " " "!").1 Stage.readFirst "not found" rfl⟩

/-- Claim C7: the separator and suffix are caller-selectable parameters of
`join`; on inputs `"Hello"` and `"world"` the composed result is
`"Hello" ++ separator ++ "world" ++ suffix`, so separator `"-"` and
suffix `"?"` yield `"Hello-world?"` (the witness below). -/
theorem join_custom_separator_suffix (s : Storage) (f k o sep suf : String)
    (h1 : readText s f = Except.ok "Hello") (h2 : readText s k = Except.ok "world")
    (hw : s.writeErr o = none) :
    (join s f k o sep suf).1 = JoinResult.success ("Hello" ++ sep ++ "world" ++ suf) := by
  have h3 : writeText s o ("Hello" ++ sep ++ "world" ++ suf) =
      Except.ok ⟨fun x => if x = o then some ("Hello" ++ sep ++ "world" ++ suf)
          else s.files x,
        s.readDenied, s.badEncoding, s.writeErr⟩ := by
    unfold writeText
    rw [hw]
  rw [join_eq_of_success s _ f k o sep suf "Hello" "world" h1 h2 h3]

/-- Concrete run of Claim C7's theorem with separator `"-"` and suffix
`"?"`, yielding `"Hello-world?"`. -/
theorem join_custom_separator_suffix_witness :
    (join sampleStore "a.txt" "b.txt" "out.txt" "-" "?").1 =
      JoinResult.success "Hello-world?" :=
  join_custom_separator_suffix sampleStore "a.txt" "b.txt" "out.txt" "-" "?" rfl rfl rfl

/-- Claim C8: the result of `join` is a deterministic function of the
storage state and the arguments (storages with identical contents and
failure behavior give identical results; there is no hidden state), and
re-invoking `join` on the state a successful call produced — with the
same arguments, the output key distinct from the input keys — yields the
same output content again. -/
theorem join_deterministic_and_idempotent (s t : Storage) (f k o sep suf : String)
    (hfs : s.files = t.files) (hrd : s.readDenied = t.readDenied)
    (hbe : s.badEncoding = t.badEncoding) (hwe : s.writeErr = t.writeErr) :
    join s f k o sep suf = join t f k o sep suf ∧
    (∀ c, o ≠ f → o ≠ k → (join s f k o sep suf).1 = JoinResult.success c →
      (join ((join s f k o sep suf).2) f k o sep suf).1 = JoinResult.success c) := by
  have hst : s = t := Storage.ext_iff.2 ⟨hfs, hrd, hbe, hwe⟩
  subst hst
  refine ⟨rfl, ?_⟩
  intro c hof hok h
  obtain ⟨a, b, h1, h2, hc, h3⟩ := join_success_inversion s f k o sep suf c h
  have hr1 : readText ((join s f k o sep suf).2) f = Except.ok a :=
    (readText_after_write s _ o c f h3 (fun hh => hof hh.symm)).trans h1
  have hr2 : readText ((join s f k o sep suf).2) k = Except.ok b :=
    (readText_after_write s _ o c k h3 (fun hh => hok hh.symm)).trans h2
  have hwn : s.writeErr o = none := ((writeText_ok_iff s o c _).1 h3).1
  have hwe2 : ((join s f k o sep suf).2).writeErr o = none := by
    rw [writeErr_after_write s _ o c h3]
    exact hwn
  have hw2 : writeText ((join s f k o sep suf).2) o (a ++ sep ++ b ++ suf) =
      Except.ok ⟨fun x => if x = o then some (a ++ sep ++ b ++ suf)
          else ((join s f k o sep suf).2).files x,
        ((join s f k o sep suf).2).readDenied,
        ((join s f k o sep suf).2).badEncoding,
        ((join s f k o sep suf).2).writeErr⟩ := by
    rw [writeText_ok_iff]
    exact ⟨hwe2, rfl⟩
  rw [join_eq_of_success _ _ f k o sep suf a b hr1 hr2 hw2]
  simp [hc]

/-- Concrete run of Claim C8's theorem: joining twice in a row on
`sampleStore` returns the composed string `"Hello world!"` both times. -/
theorem join_deterministic_and_idempotent_witness :
    ((join sampleStore "a.txt" "b.txt" "out.txt" " " "!").1 =
      JoinResult.success "Hello world!") ∧
    (join ((join sampleStore "a.txt" "b.txt" "out.txt" " " "!").2)
        "a.txt" "b.txt" "out.txt" " " "!").1 = JoinResult.success "Hello world!" :=
  ⟨rfl,
   (join_deterministic_and_idempotent sampleStore sampleStore
      "a.txt" "b.txt" "out.txt" " " "!" rfl rfl rfl rfl).2 "Hello world!"
     (by decide) (by decide) rfl⟩

/-- Claim C9: the compose step cannot fail — no invocation of `join`
ever returns a failure tagged with stage `compose` (write failures carry
no stage at all, so the only failure stages ever observed are the two
read stages). -/
theorem join_compose_stage_unreachable (s : Storage) (f k o sep suf : String) :
    ∀ st c, (join s f k o sep suf).1 = JoinResult.readFailure st c →
      st ≠ Stage.compose := by
  intro st c h
  cases h1 : readText s f with
  | error e =>
    rw [join_eq_of_first_error s f k o sep suf e h1] at h
    simp at h
    obtain ⟨h4, -⟩ := h
    subst h4
    decide
  | ok t =>
    cases h2 : readText s k with
    | error e =>
      rw [join_eq_of_second_error s f k o sep suf t e h1 h2] at h
      simp at h
      obtain ⟨h4, -⟩ := h
      subst h4
      decide
    | ok u =>
      cases h3 : writeText s o (t ++ sep ++ u ++ suf) with
      | error e =>
        rw [join_eq_of_write_error s f k o sep suf t u e h1 h2 h3] at h
        simp at h
      | ok s₁ =>
        rw [join_eq_of_success s s₁ f k o sep suf t u h1 h2 h3] at h
        simp at h

/-- Concrete run of Claim C9's theorem on a failing read. -/
theorem join_compose_stage_unreachable_witness :
    ((join missingFirstStore "a.txt" "b.txt" "out.txt" " " "!").1 =
      JoinResult.readFailure Stage.readFirst "not found") ∧
    Stage.readFirst ≠ Stage.compose :=
  ⟨rfl,
   join_compose_stage_unreachable missingFirstStore "a.txt" "b.txt" "out.txt" " " "!"
     Stage.readFirst "not found" rfl⟩

/-- Claim C10 (frame property): `join` never writes to any key other
than the output key — after any invocation, every key distinct from the
output key holds exactly its prior content (in particular the two input
keys, whenever the output key differs from them), and the provider's
read/write failure behavior is untouched. -/
theorem join_frame_only_output_written (s : Storage) (f k o sep suf x : String)
    (hx : x ≠ o) :
    ((join s f k o sep suf).2).files x = s.files x ∧
    ((join s f k o sep suf).2).readDenied = s.readDenied ∧
    ((join s f k o sep suf).2).badEncoding = s.badEncoding ∧
    ((join s f k o sep suf).2).writeErr = s.writeErr := by
  cases h1 : readText s f with
  | error e =>
    rw [join_eq_of_first_error s f k o sep suf e h1]
    exact ⟨rfl, rfl, rfl, rfl⟩
  | ok t =>
    cases h2 : readText s k with
    | error e =>
      rw [join_eq_of_second_error s f k o sep suf t e h1 h2]
      exact ⟨rfl, rfl, rfl, rfl⟩
    | ok u =>
      cases h3 : writeText s o (t ++ sep ++ u ++ suf) with
      | error e =>
        rw [join_eq_of_write_error s f k o sep suf t u e h1 h2 h3]
        exact ⟨rfl, rfl, rfl, rfl⟩
      | ok s₁ =>
        rw [join_eq_of_success s s₁ f k o sep suf t u h1 h2 h3]
        rw [writeText_ok_iff] at h3
        obtain ⟨-, rfl⟩ := h3
        refine ⟨?_, rfl, rfl, rfl⟩
        simp [hx]

/-- Concrete run of Claim C10's theorem: after a successful join on
`sampleStore`, the first input resource still holds `"Hello"`. -/
theorem join_frame_only_output_written_witness :
    ("a.txt" : String) ≠ "out.txt" ∧
    (((join sampleStore "a.txt" "b.txt" "out.txt" " " "!").2).files "a.txt" =
        sampleStore.files "a.txt" ∧
      ((join sampleStore "a.txt" "b.txt" "out.txt" " " "!").2).readDenied =
        sampleStore.readDenied ∧
      ((join sampleStore "a.txt" "b.txt" "out.txt" " " "!").2).badEncoding =
        sampleStore.badEncoding ∧
      ((join sampleStore "a.txt" "b.txt" "out.txt" " " "!").2).writeErr =
        sampleStore.writeErr) :=
  ⟨by decide,
   join_frame_only_output_written sampleStore "a.txt" "b.txt" "out.txt" " " "!" "a.txt"
     (by decide)⟩

/-- Concrete run of Claim C3's theorem on `sampleStore`. -/
theorem join_failures_returned_as_values_witness :
    (∃ c s₁, join sampleStore "a.txt" "b.txt" "out.txt" " " "!" =
      (JoinResult.success c, s₁)) ∨
    (∃ st c, join sampleStore "a.txt" "b.txt" "out.txt" " " "!" =
      (JoinResult.readFailure st c, sampleStore)) ∨
    (∃ c comp, join sampleStore "a.txt" "b.txt" "out.txt" " " "!" =
      (JoinResult.writeFailure c comp, sampleStore)) :=
  join_failures_returned_as_values sampleStore "a.txt" "b.txt" "out.txt" " " "!"
